import Mathlib

/-!
Shallow embedding of the query-to-answer pipeline of the talk-to-oura
server: the relevance classifier and query route slices
(`server/routes/data.ts`), the per-session cache (`server/cache.ts`),
the date-range resolver (`server/utils/date-range.ts`) and the
generation client with retry/fallback (`server/utils/gemini.ts`).

JS strings are Lean `String`s; JS string comparison (`<`, `>`) is
modelled by an explicit lexicographic comparison on character codes;
JS `Map` is an association list; machine timestamps are `Int`
milliseconds; external collaborators (the generative-AI call, JSON.parse)
are oracle parameters.
-/

namespace TalkToOura

/-! ## JS string primitives -/

/-- Lexicographic `<` on character lists by code point, mirroring JS
string comparison on ASCII data (code-unit order). -/
def charListLt : List Char → List Char → Bool
  | [], [] => false
  | [], _ :: _ => true
  | _ :: _, [] => false
  | a :: as, b :: bs =>
    if a.toNat < b.toNat then true
    else if b.toNat < a.toNat then false
    else charListLt as bs

/-- `sub` occurs at the head of `l`. -/
def leadsChars : List Char → List Char → Bool
  | [], _ => true
  | _ :: _, [] => false
  | a :: as, b :: bs => a == b && leadsChars as bs

/-- `sub` occurs somewhere inside `l` (substring test). -/
def occursIn (sub : List Char) : List Char → Bool
  | [] => leadsChars sub []
  | c :: rest => leadsChars sub (c :: rest) || occursIn sub rest

/-- JS `a < b` on strings. -/
def strLt (a b : String) : Bool := charListLt a.data b.data

/-- JS `a > b` on strings. -/
def strGt (a b : String) : Bool := strLt b a

/-- JS `a <= b` on strings (negation of `>`). -/
def strLe (a b : String) : Bool := !strLt b a

/-- JS `String.prototype.toLowerCase` restricted to ASCII. -/
def jsToLower (s : String) : String := ⟨s.data.map Char.toLower⟩

/-- JS `String.prototype.includes`: substring containment. -/
def jsIncludes (s sub : String) : Bool := occursIn sub.data s.data

theorem charListLt_irrefl (l : List Char) : charListLt l l = false := by
  induction l with
  | nil => rfl
  | cons a as ih => simp [charListLt, ih]

theorem charListLt_asymm {a b : List Char} (h : charListLt a b = true) :
    charListLt b a = false := by
  induction a generalizing b with
  | nil =>
    cases b with
    | nil => simp [charListLt] at h
    | cons y ys => simp [charListLt]
  | cons x xs ih =>
    cases b with
    | nil => simp [charListLt] at h
    | cons y ys =>
      simp only [charListLt] at h ⊢
      by_cases hxy : x.toNat < y.toNat
      · have hyx : ¬ y.toNat < x.toNat := by omega
        simp [hxy, hyx]
      · by_cases hyx : y.toNat < x.toNat
        · simp [hxy, hyx] at h
        · simp only [hxy, hyx, if_false, ite_false] at h ⊢
          exact ih h

theorem strLe_of_strGt_eq_false {a b : String} (h : strGt a b = false) :
    strLe a b = true := by
  simp [strGt, strLt] at h
  simp [strLe, strLt, h]

theorem strLe_of_strGt {a b : String} (h : strGt a b = true) :
    strLe b a = true := by
  simp only [strGt, strLt] at h
  simp [strLe, strLt, charListLt_asymm h]

theorem strLe_refl (a : String) : strLe a a = true := by
  simp [strLe, strLt, charListLt_irrefl]

/-! ## Relevance classifier (`server/routes/data.ts`, `detectRelevantDataTypes`) -/

structure DataTypeFlags where
  sleep : Bool
  activity : Bool
  readiness : Bool
  heartRate : Bool
deriving Repr, DecidableEq

/-- `q.includes("sleep") || q.includes("rest") || ...` on the lowercased query. -/
def wantsSleep (query : String) : Bool :=
  let q := jsToLower query
  jsIncludes q "sleep" || jsIncludes q "rest" || jsIncludes q "night" ||
    jsIncludes q "bed" || jsIncludes q "rem" || jsIncludes q "deep" ||
    jsIncludes q "awake"

def wantsActivity (query : String) : Bool :=
  let q := jsToLower query
  jsIncludes q "activity" || jsIncludes q "step" || jsIncludes q "active" ||
    jsIncludes q "exercise" || jsIncludes q "workout" ||
    jsIncludes q "calories" || jsIncludes q "move"

def wantsReadiness (query : String) : Bool :=
  let q := jsToLower query
  jsIncludes q "readiness" || jsIncludes q "recovery" || jsIncludes q "ready" ||
    jsIncludes q "stress" || jsIncludes q "strain"

def wantsHeartRate (query : String) : Bool :=
  let q := jsToLower query
  jsIncludes q "heart" || jsIncludes q "hr" || jsIncludes q "bpm" ||
    jsIncludes q "pulse"

/-- `detectRelevantDataTypes` from `server/routes/data.ts`: keyword flags,
with sleep/activity/readiness defaulting to true when nothing matches and
heart rate only on explicit request. -/
def detectRelevantDataTypes (query : String) : DataTypeFlags :=
  let ws := wantsSleep query
  let wa := wantsActivity query
  let wr := wantsReadiness query
  let wh := wantsHeartRate query
  let noSpecificType := !ws && !wa && !wr && !wh
  { sleep := ws || noSpecificType
    activity := wa || noSpecificType
    readiness := wr || noSpecificType
    heartRate := wh }

/-! ## Session cache (`server/cache.ts`) -/

/-- JS `a >= b` on strings (negation of `<`). -/
def strGe (a b : String) : Bool := !strLt a b

/-- A sleep/activity/readiness record as the cache sees it: only the
`day` field (YYYY-MM-DD) is inspected; `payload` stands for the rest of
the JSON object. -/
structure DayItem where
  day : String
  payload : String
deriving Repr, DecidableEq

/-- One timestamped heart-rate sample (`oura.ts` reading). -/
structure HRReading where
  bpm : Int
  source : String
  timestamp : String
deriving Repr, DecidableEq

/-- Per-day aggregate from `computeHeartRateDailyStats` (`oura.ts`):
`min`/`max` are `none` for the `Infinity`/`-Infinity` initial sentinels. -/
structure HRDayStats where
  readings : List HRReading
  min : Option Int
  max : Option Int
  avg : Int
deriving Repr, DecidableEq

/-- `HeartRateResult` (`oura.ts`): raw readings plus a day-keyed stats
map, modelled as an association list in insertion order. -/
structure HeartRateResult where
  readings : List HRReading
  dailyStats : List (String × HRDayStats)
deriving Repr, DecidableEq

/-- The per-category payload held by a cache entry (`CacheEntry.data`). -/
structure OuraData where
  sleep : List DayItem
  activity : List DayItem
  readiness : List DayItem
  heartRate : HeartRateResult
deriving Repr, DecidableEq

/-- `CacheEntry` from `server/cache.ts`. -/
structure CacheEntry where
  startDate : String
  endDate : String
  data : OuraData
  includedTypes : DataTypeFlags
  timestamp : Int
deriving Repr, DecidableEq

/-- The `OuraCache` state: the session-keyed `Map` plus the TTL in ms. -/
structure OuraCache where
  map : List (String × CacheEntry)
  TTL : Int
deriving Repr, DecidableEq

/-- `OuraCache.get`: absent → none; expired (`now - timestamp > TTL`) →
delete the entry and return none; otherwise return the entry.  The
returned cache reflects the lazy eviction. -/
def OuraCache.get (c : OuraCache) (sessionId : String) (now : Int) :
    Option CacheEntry × OuraCache :=
  match c.map.lookup sessionId with
  | none => (none, c)
  | some entry =>
    if now - entry.timestamp > c.TTL then
      (none, { c with map := c.map.filter (fun p => !(p.1 == sessionId)) })
    else
      (some entry, c)

/-- `OuraCache.matches` from `server/cache.ts` (`matches` is a reserved
word in Lean, hence `cacheMatches`): the JS falsy guard on the
entry dates, then range superset check by string comparison, then the
needed-type flags. -/
def cacheMatches (entry : CacheEntry) (startDate endDate : String)
    (neededTypes : DataTypeFlags) : Bool :=
  if entry.startDate = "" || entry.endDate = "" then false
  else if strGt entry.startDate startDate || strLt entry.endDate endDate then false
  else if neededTypes.sleep && !entry.includedTypes.sleep then false
  else if neededTypes.activity && !entry.includedTypes.activity then false
  else if neededTypes.readiness && !entry.includedTypes.readiness then false
  else if neededTypes.heartRate && !entry.includedTypes.heartRate then false
  else true

/-- `timestamp.split('T')[0]`: the part of the timestamp before the
first `T`. -/
def dayOfTimestamp (ts : String) : String := ⟨ts.data.takeWhile (fun c => c ≠ 'T')⟩

/-- `OuraCache.filterData` from `server/cache.ts`: project a cached
payload down to `[startDate, endDate]` by `day`, timestamp date part,
and dailyStats key. -/
def filterData (entry : CacheEntry) (startDate endDate : String) : OuraData :=
  let filterByDate (items : List DayItem) : List DayItem :=
    items.filter (fun item => strGe item.day startDate && strLe item.day endDate)
  let hr := entry.data.heartRate
  { sleep := filterByDate entry.data.sleep
    activity := filterByDate entry.data.activity
    readiness := filterByDate entry.data.readiness
    heartRate :=
      { readings := hr.readings.filter (fun r =>
          let day := dayOfTimestamp r.timestamp
          strGe day startDate && strLe day endDate)
        dailyStats := hr.dailyStats.filter (fun p =>
          strGe p.1 startDate && strLe p.1 endDate) } }

/-! ## Generation client (`server/utils/gemini.ts`, `generateWithRetry`) -/

/-- Ordered model list from `gemini.ts`. -/
def MODELS : List String := ["gemini-3-flash-preview", "gemini-2.5-flash"]

/-- Outcome of one `generateContentStream` call, as classified by the
`catch` block: success, a 429/RESOURCE_EXHAUSTED error, or any other
error. -/
inductive GenOutcome where
  | ok
  | rateLimit
  | otherError
deriving Repr, DecidableEq

/-- An error value remembered as `lastError` / rethrown. -/
inductive GenError where
  | rateLimited (model : String) (attempt : Nat)
  | otherFailure (model : String) (attempt : Nat)
deriving Repr, DecidableEq

/-- Result of the inner attempt loop for one model. -/
inductive ModelOutcome where
  | success (delays : List Nat)
  | fatal (delays : List Nat) (e : GenError)
  | exhausted (delays : List Nat) (lastErr : Option GenError)
deriving Repr, DecidableEq

/-- The inner `for (let attempt = 0; attempt < maxRetries; attempt++)`
loop of `generateWithRetry`, driven by an environment `env` giving the
outcome of each (model, attempt) call and a `jitter` oracle for
`Math.random() * 1000`.  `remaining` is `maxRetries - attempt`; the
source retries with a `2^attempt * 1000 + jitter` delay exactly when
`attempt < maxRetries - 1`, i.e. when more than one attempt remains,
and otherwise breaks to the next model. -/
def tryModel (env : String → Nat → GenOutcome) (jitter : String → Nat → Nat)
    (model : String) : Nat → Nat → List Nat → ModelOutcome
  | _, 0, delays => .exhausted delays none
  | attempt, remaining + 1, delays =>
    match env model attempt with
    | .ok => .success delays
    | .otherError => .fatal delays (.otherFailure model attempt)
    | .rateLimit =>
      if 1 ≤ remaining then
        tryModel env jitter model (attempt + 1) remaining
          (delays ++ [2 ^ attempt * 1000 + jitter model attempt])
      else
        .exhausted delays (some (.rateLimited model attempt))

/-- The outer `for (const model of MODELS)` loop: `.error none` stands
for the final `new Error("All models failed")`. -/
def generateWithRetryAux (env : String → Nat → GenOutcome)
    (jitter : String → Nat → Nat) (maxRetries : Nat) :
    List String → Option GenError → List Nat →
      Except (Option GenError) String × List Nat
  | [], lastError, delays => (.error lastError, delays)
  | m :: ms, lastError, delays =>
    match tryModel env jitter m 0 maxRetries delays with
    | .success ds => (.ok m, ds)
    | .fatal ds e => (.error (some e), ds)
    | .exhausted ds le =>
      generateWithRetryAux env jitter maxRetries ms
        (match le with | some e => some e | none => lastError) ds

/-- `generateWithRetry` from `gemini.ts` (the source default for
`maxRetries` is 2): returns the name of the model whose stream is
returned, plus the list of backoff delays awaited along the way. -/
def generateWithRetry (env : String → Nat → GenOutcome)
    (jitter : String → Nat → Nat) (maxRetries : Nat) :
    Except (Option GenError) String × List Nat :=
  generateWithRetryAux env jitter maxRetries MODELS none []

/-! ## Date range interface (`server/utils/date-range.ts`) -/

structure DateRange where
  startDate : String
  endDate : String
  usesCustomRange : Bool
deriving Repr, DecidableEq

/-! ## Query route slices (`server/routes/data.ts`, `registerQueryRoute`) -/

/-- How the handler obtains `ouraData` after the cache step
(lines 252–288 of the route): the whole cached payload, a
filtered subset, a ranged fresh fetch, or the default 7-day fetch. -/
inductive FetchPlan where
  | cachedData (d : OuraData)
  | cachedSubset (d : OuraData)
  | fetchByRange (startDate endDate : String) (flags : DataTypeFlags)
  | fetchDefault
deriving Repr, DecidableEq

/-- The fresh-fetch decision (`if (!ouraData) { ... }`). -/
def fetchPlanFor (dateRange : DateRange) (dataTypes : DataTypeFlags) :
    DateRange × FetchPlan :=
  (dateRange,
    if dateRange.usesCustomRange then
      .fetchByRange dateRange.startDate dateRange.endDate dataTypes
    else .fetchDefault)

/-- The cache-resolution step of the query handler: on a follow-up
query (non-custom range) with a live cache entry, the range is
rewritten to the entry range (marked custom) and the entry data is
used as-is; an explicit range reuses the cache only via
`cacheMatches` + `filterData`; otherwise a fresh fetch. -/
def cacheResolution (dateRange : DateRange) (dataTypes : DataTypeFlags)
    (cachedEntry : Option CacheEntry) : DateRange × FetchPlan :=
  match cachedEntry with
  | some entry =>
    if !dateRange.usesCustomRange then
      (⟨entry.startDate, entry.endDate, true⟩, .cachedData entry.data)
    else if cacheMatches entry dateRange.startDate dateRange.endDate dataTypes then
      (dateRange, .cachedSubset (filterData entry dateRange.startDate dateRange.endDate))
    else
      fetchPlanFor dateRange dataTypes
  | none => fetchPlanFor dateRange dataTypes

/-- One row of the heart-rate daily summary sent to the model / client:
`min === Infinity ? null : min`, `max === -Infinity ? null : max`,
`avg || null`. -/
structure HRSummaryRow where
  day : String
  min : Option Int
  max : Option Int
  avg : Option Int
deriving Repr, DecidableEq

def hrSummary (hr : HeartRateResult) : List HRSummaryRow :=
  hr.dailyStats.map (fun (p : String × HRDayStats) =>
    { day := p.1
      min := p.2.min
      max := p.2.max
      avg := if p.2.avg = 0 then none else some p.2.avg })

/-- `buildRelevantDataPayload`: per-flag keys; `null` (here `none`) when
no key is present. -/
structure RelevantPayload where
  sleep : Option (List DayItem)
  activity : Option (List DayItem)
  readiness : Option (List DayItem)
  heartRate : Option (List HRSummaryRow)
deriving Repr, DecidableEq

def buildRelevantDataPayload (ouraData : OuraData) (dataTypes : DataTypeFlags) :
    Option RelevantPayload :=
  if dataTypes.sleep || dataTypes.activity || dataTypes.readiness || dataTypes.heartRate then
    some
      { sleep := if dataTypes.sleep then some ouraData.sleep else none
        activity := if dataTypes.activity then some ouraData.activity else none
        readiness := if dataTypes.readiness then some ouraData.readiness else none
        heartRate := if dataTypes.heartRate then some (hrSummary ouraData.heartRate) else none }
  else none

/-- `hasData` (line 290): some category is nonempty (`length > 0`). -/
def hasData (d : OuraData) : Bool :=
  !d.sleep.isEmpty || !d.activity.isEmpty || !d.readiness.isEmpty ||
    !d.heartRate.readings.isEmpty

/-- The two no-data messages (lines 294–296). -/
def noDataMsg (dateRange : DateRange) : String :=
  if dateRange.usesCustomRange then
    "I couldn\x27t find any data from your Oura ring for the period " ++
      dateRange.startDate ++ " to " ++ dateRange.endDate ++
      ". Please make sure your ring was synced during that time."
  else
    "I couldn\x27t find any recent data from your Oura ring. Please make sure your ring is synced and try again."

/-- The discrete events written to the SSE response. -/
inductive SSEEvent where
  | content (text : String)
  | doneBare
  | doneData (payload : Option RelevantPayload)
  | errorEvent (message : String)
deriving Repr, DecidableEq

/-- The emission tail of the query handler (lines 290–320): the no-data
short-circuit, else one content event per nonempty stream chunk
(`chunk.text || ""`, written only `if (text)`) followed by the terminal
`{ouraData, done:true}` event. -/
def queryEmission (dateRange : DateRange) (dataTypes : DataTypeFlags)
    (ouraData : OuraData) (streamChunks : List String) : List SSEEvent :=
  if !hasData ouraData then
    [.content (noDataMsg dateRange), .doneBare]
  else
    streamChunks.filterMap (fun t => if t = "" then none else some (.content t)) ++
      [.doneData (buildRelevantDataPayload ouraData dataTypes)]

/-! ## Calendar dates

`date-range.ts` manipulates JS `Date`s and formats them with
`toISOString().split("T")[0]`.  We model a date as a civil (year,
month 1–12, day) triple with the standard Gregorian day-number
conversion, and ignore time-of-day/timezone (the spec treats dates as
calendar dates). -/

structure CivilDate where
  year : Int
  month : Int
  day : Int
deriving Repr, DecidableEq

/-- Days since 1970-01-01 of a civil date (Gregorian). -/
def daysFromCivil (y0 m d : Int) : Int :=
  let y := if m ≤ 2 then y0 - 1 else y0
  let era := (if 0 ≤ y then y else y - 399) / 400
  let yoe := y - era * 400
  let doy := (153 * (m + (if 2 < m then -3 else 9)) + 2) / 5 + d - 1
  let doe := yoe * 365 + yoe / 4 - yoe / 100 + doy
  era * 146097 + doe - 719468

/-- Civil date of a day number since 1970-01-01 (Gregorian). -/
def civilFromDays (z0 : Int) : CivilDate :=
  let z := z0 + 719468
  let era := (if 0 ≤ z then z else z - 146096) / 146097
  let doe := z - era * 146097
  let yoe := (doe - doe / 1460 + doe / 36524 - doe / 146096) / 365
  let y := yoe + era * 400
  let doy := doe - (365 * yoe + yoe / 4 - yoe / 100)
  let mp := (5 * doy + 2) / 153
  let d := doy - (153 * mp + 2) / 5 + 1
  let m := mp + (if mp < 10 then 3 else -9)
  ⟨y + (if m ≤ 2 then 1 else 0), m, d⟩

/-- `date.setDate(date.getDate() + n)` / `getTime() ± n` days. -/
def dateAddDays (c : CivilDate) (n : Int) : CivilDate :=
  civilFromDays (daysFromCivil c.year c.month c.day + n)

/-- `new Date(year, monthIdx, day)` with JS month/day normalization
(month index 0-based, day 0 = last day of previous month, etc.). -/
def jsMakeDate (y monthIdx d : Int) : CivilDate :=
  let yAdj := y + Int.fdiv monthIdx 12
  let mAdj := Int.emod monthIdx 12
  civilFromDays (daysFromCivil yAdj (mAdj + 1) 1 + (d - 1))

def pad2 (n : Int) : String := if n < 10 then "0" ++ toString n else toString n

def pad4 (n : Int) : String :=
  if n < 10 then "000" ++ toString n
  else if n < 100 then "00" ++ toString n
  else if n < 1000 then "0" ++ toString n
  else toString n

/-- `formatDate` from `date-range.ts`:
`date.toISOString().split("T")[0]`, i.e. zero-padded YYYY-MM-DD. -/
def formatDate (c : CivilDate) : String :=
  pad4 c.year ++ "-" ++ pad2 c.month ++ "-" ++ pad2 c.day

/-! ## Pattern matchers for `parseDateRangeFromQuery` / `DATE_PATTERNS`

Hand-written matchers for each regex of `date-range.ts`, with JS
leftmost-match semantics (scan positions left to right); `\b` is
tracked by carrying the previous character. -/

/-- JS `\w` (ASCII word character). -/
def isWordCh (c : Char) : Bool := c.isAlphanum || c = '_'

/-- JS `\s` restricted to ASCII whitespace. -/
def isSpaceCh (c : Char) : Bool := c.isWhitespace

/-- A `\b` holds before a word character at the current position given
the previous character. -/
def boundaryBefore : Option Char → Bool
  | none => true
  | some p => !isWordCh p

/-- A `\b` holds after a word character given the rest of the input. -/
def boundaryAfter : List Char → Bool
  | [] => true
  | c :: _ => !isWordCh c

/-- Exactly `n` digits (`\d{n}`), returning them and the rest. -/
def takeDigits : Nat → List Char → Option (List Char × List Char)
  | 0, l => some ([], l)
  | _ + 1, [] => none
  | n + 1, c :: rest =>
    if c.isDigit then
      match takeDigits n rest with
      | some (ds, r) => some (c :: ds, r)
      | none => none
    else none

/-- `\d{4}-\d{2}-\d{2}` at the current position. -/
def pDate (l : List Char) : Option (List Char × List Char) :=
  match takeDigits 4 l with
  | none => none
  | some (y, r1) =>
    match r1 with
    | '-' :: r2 =>
      match takeDigits 2 r2 with
      | none => none
      | some (mo, r3) =>
        match r3 with
        | '-' :: r4 =>
          match takeDigits 2 r4 with
          | none => none
          | some (d, r5) => some (y ++ '-' :: mo ++ '-' :: d, r5)
        | _ => none
    | _ => none

/-- Consume the literal `w` at the head of the input. -/
def litAt : List Char → List Char → Option (List Char)
  | [], l => some l
  | _ :: _, [] => none
  | a :: as, b :: bs => if a == b then litAt as bs else none

/-- `(\d{4}-\d{2}-\d{2})\s*(to|-)\s*(\d{4}-\d{2}-\d{2})` at the current
position (no `\b` in this regex). -/
def rangeAt (l : List Char) : Option (String × String) :=
  match pDate l with
  | none => none
  | some (d1, r1) =>
    let r2 := r1.dropWhile isSpaceCh
    let sep : Option (List Char) :=
      match litAt ['t', 'o'] r2 with
      | some r => some r
      | none => litAt ['-'] r2
    match sep with
    | none => none
    | some r3 =>
      match pDate (r3.dropWhile isSpaceCh) with
      | none => none
      | some (d2, _) => some (⟨d1⟩, ⟨d2⟩)

/-- Leftmost match of the two-date range pattern. -/
def findRangePair : List Char → Option (String × String)
  | [] => none
  | c :: rest =>
    match rangeAt (c :: rest) with
    | some r => some r
    | none => findRangePair rest

/-- Leftmost match of `\b(\d{4}-\d{2}-\d{2})\b`. -/
def findSingleDate : Option Char → List Char → Option String
  | _, [] => none
  | prev, c :: rest =>
    let here : Option String :=
      if boundaryBefore prev then
        match pDate (c :: rest) with
        | some (d, r) => if boundaryAfter r then some ⟨d⟩ else none
        | none => none
      else none
    match here with
    | some d => some d
    | none => findSingleDate (some c) rest

/-- `\bw\b` at the current position (for a literal `w` whose first and
last characters are word characters). -/
def wordAt (w : List Char) (prev : Option Char) (l : List Char) : Bool :=
  boundaryBefore prev &&
    (match litAt w l with
     | some r => boundaryAfter r
     | none => false)

def testWordFrom (w : List Char) : Option Char → List Char → Bool
  | _, [] => false
  | prev, c :: rest => wordAt w prev (c :: rest) || testWordFrom w (some c) rest

/-- `/\bw\b/.test(q)`. -/
def testWord (w q : String) : Bool := testWordFrom w.data none q.data

/-- `\s+` at the head: requires at least one whitespace character. -/
def spaces1 : List Char → Option (List Char)
  | [] => none
  | c :: rest => if isSpaceCh c then some (rest.dropWhile isSpaceCh) else none

/-- `\bw1\s+w2\b` at the current position. -/
def phraseAt (w1 w2 : List Char) (prev : Option Char) (l : List Char) : Bool :=
  boundaryBefore prev &&
    (match litAt w1 l with
     | some r1 =>
       (match spaces1 r1 with
        | some r2 =>
          (match litAt w2 r2 with
           | some r3 => boundaryAfter r3
           | none => false)
        | none => false)
     | none => false)

def phraseFrom (w1 w2 : List Char) : Option Char → List Char → Bool
  | _, [] => false
  | prev, c :: rest => phraseAt w1 w2 prev (c :: rest) || phraseFrom w1 w2 (some c) rest

/-- `/\bw1\s+w2\b/.test(q)`. -/
def phraseTest (w1 w2 q : String) : Bool := phraseFrom w1.data w2.data none q.data

/-- Generic leftmost scan for a position-wise boundary-aware test. -/
def scanTest (p : Option Char → List Char → Bool) : Option Char → List Char → Bool
  | _, [] => false
  | prev, c :: rest => p prev (c :: rest) || scanTest p (some c) rest

/-- Unit captured by the relative-range regex (`days?|weeks?|...`). -/
inductive RelUnit where
  | day
  | week
  | month
  | year
deriving Repr, DecidableEq

/-- `Number` of a nonempty digit string. -/
def natOfDigits (ds : List Char) : Nat :=
  ds.foldl (fun acc c => acc * 10 + (c.toNat - '0'.toNat)) 0

/-- The unit alternation `days?|weeks?|months?|years?` (alternatives
are pairwise exclusive at any position). -/
def unitAt (l : List Char) : Option (RelUnit × List Char) :=
  match litAt ['d', 'a', 'y'] l with
  | some r => some (.day, r)
  | none =>
    match litAt ['w', 'e', 'e', 'k'] l with
    | some r => some (.week, r)
    | none =>
      match litAt ['m', 'o', 'n', 't', 'h'] l with
      | some r => some (.month, r)
      | none =>
        match litAt ['y', 'e', 'a', 'r'] l with
        | some r => some (.year, r)
        | none => none

/-- `s?\b` after the unit: greedy optional `s`, then a word boundary
(backtracking to the no-`s` branch can never help, since the next
character would then be the word character `s`). -/
def unitTailOk : List Char → Bool
  | 's' :: rest => boundaryAfter rest
  | r => boundaryAfter r

/-- `\b(last|past|previous)\s+(\d+)\s+(days?|weeks?|months?|years?)\b`
at the current position, returning `Number` of the digits and the unit. -/
def relAt (prev : Option Char) (l : List Char) : Option (Nat × RelUnit) :=
  if boundaryBefore prev then
    let kw : Option (List Char) :=
      match litAt ['l', 'a', 's', 't'] l with
      | some r => some r
      | none =>
        match litAt ['p', 'a', 's', 't'] l with
        | some r => some r
        | none => litAt ['p', 'r', 'e', 'v', 'i', 'o', 'u', 's'] l
    match kw with
    | none => none
    | some r1 =>
      match spaces1 r1 with
      | none => none
      | some r2 =>
        let ds := r2.takeWhile Char.isDigit
        if ds.isEmpty then none
        else
          match spaces1 (r2.dropWhile Char.isDigit) with
          | none => none
          | some r3 =>
            match unitAt r3 with
            | some (u, r4) => if unitTailOk r4 then some (natOfDigits ds, u) else none
            | none => none
  else none

/-- Leftmost match of the relative-range pattern. -/
def findRel : Option Char → List Char → Option (Nat × RelUnit)
  | _, [] => none
  | prev, c :: rest =>
    match relAt prev (c :: rest) with
    | some r => some r
    | none => findRel (some c) rest

/-- `\b(20\d{2})\b` at the current position. -/
def yearAt (prev : Option Char) (l : List Char) : Option Nat :=
  if boundaryBefore prev then
    match l with
    | '2' :: '0' :: c1 :: c2 :: rest =>
      if c1.isDigit && c2.isDigit && boundaryAfter rest then
        some (natOfDigits ['2', '0', c1, c2])
      else none
    | _ => none
  else none

/-- Leftmost match of the bare-year pattern. -/
def findYear : Option Char → List Char → Option Nat
  | _, [] => none
  | prev, c :: rest =>
    match yearAt prev (c :: rest) with
    | some y => some y
    | none => findYear (some c) rest

/-! ## `parseDateRangeFromQuery` (`server/utils/date-range.ts`) -/

def parseDateRangeFromQuery (query : String) (today : CivilDate) : Option DateRange :=
  let q := jsToLower query
  let todayStr := formatDate today
  let toRange (s e : CivilDate) : DateRange := ⟨formatDate s, formatDate e, true⟩
  match findRangePair q.data with
  | some (d1, d2) => some ⟨d1, d2, true⟩
  | none =>
    match findSingleDate none q.data with
    | some d => some ⟨d, d, true⟩
    | none =>
      if testWord "today" q then some ⟨todayStr, todayStr, true⟩
      else if testWord "yesterday" q || testWord "last night" q then
        let date := dateAddDays today (-1)
        some ⟨formatDate date, formatDate date, true⟩
      else
        match findRel none q.data with
        | some (amount, unit) =>
          let days : Int :=
            match unit with
            | .day => (amount : Int)
            | .week => (amount : Int) * 7
            | .month => (amount : Int) * 30
            | .year => (amount : Int) * 365
          some (toRange (dateAddDays today (-days)) today)
        | none =>
          if phraseTest "this" "week" q || phraseTest "last" "week" q then
            some (toRange (dateAddDays today (-7)) today)
          else if phraseTest "this" "month" q then
            some (toRange (jsMakeDate today.year (today.month - 1) 1) today)
          else if phraseTest "last" "month" q then
            some (toRange (jsMakeDate today.year (today.month - 2) 1)
              (jsMakeDate today.year (today.month - 1) 0))
          else if phraseTest "this" "year" q then
            some (toRange (jsMakeDate today.year 0 1) today)
          else if phraseTest "last" "year" q then
            some (toRange (jsMakeDate (today.year - 1) 0 1)
              (jsMakeDate (today.year - 1) 11 31))
          else
            match findYear none q.data with
            | some year =>
              some (toRange (jsMakeDate (year : Int) 0 1) (jsMakeDate (year : Int) 11 31))
            | none => none

/-! ## `DATE_PATTERNS` and `extractDateRange` -/

def monthFullNames : List String :=
  ["january", "february", "march", "april", "may", "june", "july",
   "august", "september", "october", "november", "december"]

/-- Pattern 1: `\b(january|...|december)\s+\d{4}\b` (case handled by
lowercasing the query). -/
def monthYearAt (prev : Option Char) (l : List Char) : Bool :=
  boundaryBefore prev &&
    monthFullNames.any (fun m =>
      match litAt m.data l with
      | some r1 =>
        (match spaces1 r1 with
         | some r2 =>
           (match takeDigits 4 r2 with
            | some (_, r3) => boundaryAfter r3
            | none => false)
         | none => false)
      | none => false)

def periodWords1 : List String := ["this", "last", "past", "previous"]

def periodWords2 : List String := ["week", "month", "year"]

/-- Pattern 3: `\b(this|last|past|previous)\s+(week|month|year)\b`. -/
def periodPhraseAt (prev : Option Char) (l : List Char) : Bool :=
  boundaryBefore prev &&
    periodWords1.any (fun w1 =>
      match litAt w1.data l with
      | some r1 =>
        (match spaces1 r1 with
         | some r2 =>
           periodWords2.any (fun w2 =>
             match litAt w2.data r2 with
             | some r3 => boundaryAfter r3
             | none => false)
         | none => false)
      | none => false)

def monthShortNames : List String :=
  ["jan", "feb", "mar", "apr", "may", "jun", "jul", "aug", "sep", "oct", "nov", "dec"]

/-- Pattern 5: `\b(jan|...|dec)\s+\d{1,2}` — for a `.test` this is the
existence of a short month name, whitespace, and at least one digit. -/
def shortMonthDayAt (prev : Option Char) (l : List Char) : Bool :=
  boundaryBefore prev &&
    monthShortNames.any (fun m =>
      match litAt m.data l with
      | some r1 =>
        (match spaces1 r1 with
         | some r2 =>
           (match r2 with
            | c :: _ => c.isDigit
            | [] => false)
         | none => false)
      | none => false)

/-- `DATE_PATTERNS.some(pattern => pattern.test(query))`: the `/i`
flags are handled by testing the lowercased query (the remaining
patterns contain no letters). -/
def hasDateReference (query : String) : Bool :=
  let q := jsToLower query
  scanTest monthYearAt none q.data ||
    (findRel none q.data).isSome ||
    scanTest periodPhraseAt none q.data ||
    (findSingleDate none q.data).isSome ||
    scanTest shortMonthDayAt none q.data ||
    (findYear none q.data).isSome ||
    testWord "year" q || testWord "yr" q

def openBrace : Char := Char.ofNat 123

def closeBrace : Char := Char.ofNat 125

/-- `fullText.trim().match(/\{[\s\S]*\}/)`: greedy, so the slice from
the first opening brace to the last closing brace, when ordered. -/
def braceMatch (s : String) : Option String :=
  let l := s.data
  match l.findIdx? (fun c => c == openBrace) with
  | none => none
  | some i =>
    match l.reverse.findIdx? (fun c => c == closeBrace) with
    | none => none
    | some jr =>
      let j := l.length - 1 - jr
      if i ≤ j then some ⟨(l.drop i).take (j + 1 - i)⟩ else none

/-- JS truthiness of `parsed.startDate` / `parsed.endDate` for a
string-valued field: present and nonempty. -/
def truthyField (obj : List (String × String)) (k : String) : Option String :=
  match obj.lookup k with
  | some v => if v = "" then none else some v
  | none => none

/-- The `try { ... ai.models.generateContentStream ... }` tail of
`extractDateRange`.  `aiResp` is the oracle for the streamed AI text
(`.error` = the call or the iteration threw, caught by the `catch`);
`jsonParse` is the oracle for `JSON.parse` restricted to string-valued
objects (`none` = parse exception or non-object, also caught). -/
def aiDateResult (todayStr : String) (defaultRange : DateRange)
    (aiResp : Except Unit String)
    (jsonParse : String → Option (List (String × String))) : DateRange :=
  match aiResp with
  | .error _ => defaultRange
  | .ok fullText =>
    match braceMatch fullText.trim with
    | none => defaultRange
    | some jsonStr =>
      match jsonParse jsonStr with
      | none => defaultRange
      | some parsed =>
        match truthyField parsed "startDate", truthyField parsed "endDate" with
        | some s0, some e0 =>
          let p : String × String := if strGt s0 e0 then (e0, s0) else (s0, e0)
          ⟨p.1, if strGt p.2 todayStr then todayStr else p.2, true⟩
        | some _, none => defaultRange
        | none, _ => defaultRange

/-- The AI path yields no usable `{startDate, endDate}`: the call threw,
no JSON object was found, `JSON.parse` threw, or a field is missing or
falsy. -/
def aiExtractionFailed (aiResp : Except Unit String)
    (jsonParse : String → Option (List (String × String))) : Bool :=
  match aiResp with
  | .error _ => true
  | .ok fullText =>
    match braceMatch fullText.trim with
    | none => true
    | some jsonStr =>
      match jsonParse jsonStr with
      | none => true
      | some parsed =>
        (truthyField parsed "startDate").isNone || (truthyField parsed "endDate").isNone

/-- `extractDateRange` from `date-range.ts`, with `today` passed
explicitly (`new Date()` in the source) and the AI/JSON externals as
oracles. -/
def extractDateRange (query : String) (today : CivilDate)
    (aiResp : Except Unit String)
    (jsonParse : String → Option (List (String × String))) : DateRange :=
  let todayStr := formatDate today
  let defaultRange : DateRange := ⟨formatDate (dateAddDays today (-7)), todayStr, false⟩
  match parseDateRangeFromQuery query today with
  | some parsedRange =>
    if strGt parsedRange.startDate parsedRange.endDate then
      ⟨parsedRange.endDate, parsedRange.startDate, true⟩
    else
      ⟨parsedRange.startDate,
        (if strGt parsedRange.endDate todayStr then todayStr else parsedRange.endDate),
        parsedRange.usesCustomRange⟩
  | none =>
    if !hasDateReference query then defaultRange
    else aiDateResult todayStr defaultRange aiResp jsonParse

/-! ## Concrete sample data for witnesses and counterexamples -/

def emptyHR : HeartRateResult := ⟨[], []⟩

def emptyOuraData : OuraData := ⟨[], [], [], emptyHR⟩

def noTypes : DataTypeFlags := ⟨false, false, false, false⟩

def allTypes : DataTypeFlags := ⟨true, true, true, true⟩

def zeroJitter : String → Nat → Nat := fun _ _ => 0

/-- Environment where the primary model rate-limits on attempts 0 and 1
and succeeds from attempt 2 on; the fallback model always succeeds. -/
def envPrimaryTwice : String → Nat → GenOutcome := fun model attempt =>
  if model == "gemini-3-flash-preview" then
    (if attempt ≤ 1 then .rateLimit else .ok)
  else .ok

/-! ## Claim theorems -/

/-- C3 (counterexample): on the resting-heart-rate query the
classifier does NOT return sleep=false: the substring "rest" of
"resting" switches the sleep flag on, so the claimed output
⟨false, false, false, true⟩ is wrong. -/
theorem C3_counterexample :
    ¬ (detectRelevantDataTypes "What\x27s my resting heart rate?" =
        ⟨false, false, false, true⟩) := by
  decide

/-- C3 (amended): on the resting-heart-rate query the classifier
returns heartRate=true, activity=false, readiness=false, and
sleep=true — sleep is set because the keyword "rest" occurs inside
"resting". -/
theorem C3_theorem :
    detectRelevantDataTypes "What\x27s my resting heart rate?" =
      ⟨true, false, false, true⟩ := by
  decide

/-- C6: when no keyword of any of the four categories occurs in the
query (all four `wants*` detectors are false), the classifier returns
sleep=true, activity=true, readiness=true, heartRate=false. -/
theorem C6_theorem (q : String)
    (hs : wantsSleep q = false) (ha : wantsActivity q = false)
    (hr : wantsReadiness q = false) (hh : wantsHeartRate q = false) :
    detectRelevantDataTypes q = ⟨true, true, true, false⟩ := by
  simp [detectRelevantDataTypes, hs, ha, hr, hh]

/-- C6 witness: "How am I doing?" matches no keyword and classifies to
⟨true, true, true, false⟩. -/
theorem C6_witness :
    detectRelevantDataTypes "How am I doing?" = ⟨true, true, true, false⟩ :=
  C6_theorem "How am I doing?" (by decide) (by decide) (by decide) (by decide)

/-- C1 (counterexample): with the source default `maxRetries = 2`, a
primary model that rate-limits twice and would succeed on its third
call is abandoned after ONE backoff delay, and the returned stream
comes from the fallback model, not the primary. -/
theorem C1_counterexample :
    generateWithRetry envPrimaryTwice zeroJitter 2 =
      (.ok "gemini-2.5-flash", [1000]) ∧
    ("gemini-2.5-flash" : String) ≠ "gemini-3-flash-preview" := by
  constructor
  · rfl
  · decide

/-- C1 (amended): retries within a model do happen before falling back,
but two rate-limit errors followed by success on the primary model give
exactly 2 backoff delays (`2^attempt * 1000 + jitter`) and a primary
stream only when `maxRetries ≥ 3`; the source default `maxRetries = 2`
abandons the primary after one delay. -/
theorem C1_theorem (env : String → Nat → GenOutcome) (jitter : String → Nat → Nat)
    (h0 : env "gemini-3-flash-preview" 0 = .rateLimit)
    (h1 : env "gemini-3-flash-preview" 1 = .rateLimit)
    (h2 : env "gemini-3-flash-preview" 2 = .ok) :
    generateWithRetry env jitter 3 =
      (.ok "gemini-3-flash-preview",
        [2 ^ 0 * 1000 + jitter "gemini-3-flash-preview" 0,
         2 ^ 1 * 1000 + jitter "gemini-3-flash-preview" 1]) := by
  simp [generateWithRetry, MODELS, generateWithRetryAux, tryModel, h0, h1, h2]

/-- C1 witness: the amended theorem at the concrete two-rate-limit
environment with zero jitter. -/
theorem C1_witness :
    generateWithRetry envPrimaryTwice zeroJitter 3 =
      (.ok "gemini-3-flash-preview",
        [2 ^ 0 * 1000 + zeroJitter "gemini-3-flash-preview" 0,
         2 ^ 1 * 1000 + zeroJitter "gemini-3-flash-preview" 1]) :=
  C1_theorem envPrimaryTwice zeroJitter (by decide) (by decide) (by decide)

/-- C7: with a live cache entry and a non-custom resolved range, the
handler reuses the cached data wholesale and rewrites the range to
the cached range with usesCustomRange=true — even when the query
needs heart-rate data and the entry was cached without it (no
includedTypes check on this path). -/
theorem C7_theorem (dr : DateRange) (types : DataTypeFlags) (entry : CacheEntry)
    (hdr : dr.usesCustomRange = false)
    (_hneed : types.heartRate = true)
    (_hmiss : entry.includedTypes.heartRate = false) :
    cacheResolution dr types (some entry) =
      (⟨entry.startDate, entry.endDate, true⟩, .cachedData entry.data) := by
  simp [cacheResolution, hdr]

/-- C7 witness: a follow-up heart-rate query reuses an entry cached
with heart rate excluded. -/
theorem C7_witness :
    cacheResolution ⟨"2026-10-04", "2026-10-11", false⟩ ⟨true, true, true, true⟩
        (some ⟨"2026-10-01", "2026-10-08", emptyOuraData, ⟨true, true, true, false⟩, 0⟩) =
      (⟨"2026-10-01", "2026-10-08", true⟩, .cachedData emptyOuraData) :=
  C7_theorem ⟨"2026-10-04", "2026-10-11", false⟩ ⟨true, true, true, true⟩
    ⟨"2026-10-01", "2026-10-08", emptyOuraData, ⟨true, true, true, false⟩, 0⟩
    (by decide) (by decide) (by decide)

/-- C10: when every category of the resolved dataset is empty, the
emission is exactly one content event carrying the no-data message
followed by the bare done event — no error event, regardless of the
stream chunks. -/
theorem C10_theorem (dr : DateRange) (types : DataTypeFlags) (d : OuraData)
    (chunks : List String) (h : hasData d = false) :
    queryEmission dr types d chunks = [.content (noDataMsg dr), .doneBare] := by
  simp [queryEmission, h]

/-- C10 witness: the empty dataset with a custom range. -/
theorem C10_witness :
    queryEmission ⟨"2026-10-04", "2026-10-11", true⟩ allTypes emptyOuraData ["hi"] =
      [.content (noDataMsg ⟨"2026-10-04", "2026-10-11", true⟩), .doneBare] :=
  C10_theorem ⟨"2026-10-04", "2026-10-11", true⟩ allTypes emptyOuraData ["hi"] (by decide)

/-- Looking up a key in a list from which all pairs with that key were
filtered out yields nothing. -/
theorem lookup_filter_self (l : List (String × CacheEntry)) (sid : String) :
    (l.filter (fun p => !(p.1 == sid))).lookup sid = none := by
  induction l with
  | nil => rfl
  | cons p ps ih =>
    by_cases h : p.1 = sid
    · simp [List.filter_cons, h, ih]
    · have hb : (p.1 == sid) = false := by simp [h]
      have hb' : (sid == p.1) = false := by
        simp only [beq_eq_false_iff_ne]
        exact fun hc => h hc.symm
      simp [List.filter_cons, hb, List.lookup, hb', ih]

/-- C9: `get` returns none when the session is absent; when the entry
is expired (`now - timestamp > TTL`) it returns none AND removes the
entry from the map (lazy eviction); otherwise it returns the entry and
leaves the cache unchanged. -/
theorem C9_theorem (c : OuraCache) (sid : String) (now : Int) :
    (c.map.lookup sid = none → c.get sid now = (none, c)) ∧
    (∀ e : CacheEntry, c.map.lookup sid = some e → now - e.timestamp > c.TTL →
      (c.get sid now).1 = none ∧ (c.get sid now).2.map.lookup sid = none) ∧
    (∀ e : CacheEntry, c.map.lookup sid = some e → ¬ now - e.timestamp > c.TTL →
      c.get sid now = (some e, c)) := by
  refine ⟨?_, ?_, ?_⟩
  · intro h
    unfold OuraCache.get
    rw [h]
  · intro e he hexp
    unfold OuraCache.get
    rw [he]
    simp [hexp, lookup_filter_self]
  · intro e he hnot
    unfold OuraCache.get
    rw [he]
    simp [hnot]

def entryW : CacheEntry := ⟨"2026-10-01", "2026-10-08", emptyOuraData, allTypes, 0⟩

def cacheW : OuraCache := ⟨[("s", entryW)], 3600000⟩

/-- C9 witness: a one-hour-TTL cache read 4000 seconds after the entry
was stored returns none and drops the entry. -/
theorem C9_witness :
    (cacheW.get "s" 4000000).1 = none ∧
    (cacheW.get "s" 4000000).2.map.lookup "s" = none :=
  (C9_theorem cacheW "s" 4000000).2.1 entryW (by rfl) (by decide)

/-- C2 (counterexample): for the query "2099-06-15" (a single future
date) and today = 2026-10-11, `extractDateRange` clamps the endDate to
today without re-checking the order, returning a range with
startDate > endDate: the invariant startDate ≤ endDate ≤ today fails. -/
theorem C2_counterexample :
    extractDateRange "2099-06-15" ⟨2026, 10, 11⟩ (.error ()) (fun _ => none) =
      ⟨"2099-06-15", "2026-10-11", true⟩ ∧
    strLe "2099-06-15" "2026-10-11" = false := by
  constructor
  · rfl
  · decide

/-- C2 (amended): in the heuristic-parse branch the invariant
startDate ≤ endDate ≤ today DOES hold whenever the parsed startDate
is ≤ today (the swap branch orders the dates and the clamp
branch caps the end); it can only fail for parsed ranges whose
startDate lies in the future, because the swap branch omits the clamp
and the clamp branch omits a re-swap. -/
theorem C2_theorem (query : String) (today : CivilDate)
    (aiResp : Except Unit String)
    (jsonParse : String → Option (List (String × String))) (r : DateRange)
    (hp : parseDateRangeFromQuery query today = some r)
    (hs : strLe r.startDate (formatDate today) = true) :
    strLe (extractDateRange query today aiResp jsonParse).startDate
        (extractDateRange query today aiResp jsonParse).endDate = true ∧
    strLe (extractDateRange query today aiResp jsonParse).endDate
        (formatDate today) = true := by
  unfold extractDateRange
  rw [hp]
  cases hgt : strGt r.startDate r.endDate with
  | true =>
    simp only [hgt, if_true]
    exact ⟨strLe_of_strGt hgt, hs⟩
  | false =>
    cases hc : strGt r.endDate (formatDate today) with
    | true =>
      simp only [hgt, hc, Bool.false_eq_true, if_false, if_true]
      exact ⟨hs, strLe_refl _⟩
    | false =>
      simp only [hgt, hc, Bool.false_eq_true, if_false]
      exact ⟨strLe_of_strGt_eq_false hgt, strLe_of_strGt_eq_false hc⟩

/-- C2 witness: the amended invariant at the query "2020-01-05". -/
theorem C2_witness :
    strLe (extractDateRange "2020-01-05" ⟨2026, 10, 11⟩ (.error ())
        (fun _ => none)).startDate
      (extractDateRange "2020-01-05" ⟨2026, 10, 11⟩ (.error ())
        (fun _ => none)).endDate = true ∧
    strLe (extractDateRange "2020-01-05" ⟨2026, 10, 11⟩ (.error ())
        (fun _ => none)).endDate (formatDate ⟨2026, 10, 11⟩) = true :=
  C2_theorem "2020-01-05" ⟨2026, 10, 11⟩ (.error ()) (fun _ => none)
    ⟨"2020-01-05", "2020-01-05", true⟩ (by rfl) (by decide)

/-- C5 (counterexample): the query "2099-01-01 to 2099-12-31" contains
an explicit two-date pattern, but for today = 2026-10-11 the resolver
does NOT return that pair verbatim: the future endDate is clamped to
today. -/
theorem C5_counterexample :
    findRangePair (jsToLower "2099-01-01 to 2099-12-31").data =
      some ("2099-01-01", "2099-12-31") ∧
    extractDateRange "2099-01-01 to 2099-12-31" ⟨2026, 10, 11⟩ (.error ())
        (fun _ => none) =
      ⟨"2099-01-01", "2026-10-11", true⟩ ∧
    (⟨"2099-01-01", "2026-10-11", true⟩ : DateRange) ≠
      ⟨"2099-01-01", "2099-12-31", true⟩ := by
  refine ⟨by rfl, by rfl, by decide⟩

/-- C5 (amended): whenever the two-date pattern
`YYYY-MM-DD (to|-) YYYY-MM-DD` matches the query, the resolver returns
that pair with usesCustomRange=true, swapped verbatim when inverted;
when not inverted, the endDate is clamped to today if it lies in the
future, otherwise the pair is returned exactly. -/
theorem C5_theorem (query : String) (today : CivilDate)
    (aiResp : Except Unit String)
    (jsonParse : String → Option (List (String × String))) (d1 d2 : String)
    (h : findRangePair (jsToLower query).data = some (d1, d2)) :
    extractDateRange query today aiResp jsonParse =
      (if strGt d1 d2 then ⟨d2, d1, true⟩
       else ⟨d1, if strGt d2 (formatDate today) then formatDate today else d2, true⟩) := by
  have hp : parseDateRangeFromQuery query today = some ⟨d1, d2, true⟩ := by
    simp only [parseDateRangeFromQuery, h]
  unfold extractDateRange
  rw [hp]

/-- C5 witness: the amended statement at "sleep 2024-01-01 to 2024-02-03". -/
theorem C5_witness :
    extractDateRange "sleep 2024-01-01 to 2024-02-03" ⟨2026, 10, 11⟩ (.error ())
        (fun _ => none) =
      (if strGt "2024-01-01" "2024-02-03" then ⟨"2024-02-03", "2024-01-01", true⟩
       else ⟨"2024-01-01",
         if strGt "2024-02-03" (formatDate ⟨2026, 10, 11⟩) then formatDate ⟨2026, 10, 11⟩
         else "2024-02-03", true⟩) :=
  C5_theorem "sleep 2024-01-01 to 2024-02-03" ⟨2026, 10, 11⟩ (.error ())
    (fun _ => none) "2024-01-01" "2024-02-03" (by rfl)

/-- If the AI extraction fails (call threw, no JSON object found,
`JSON.parse` threw, or a field missing/falsy), the AI path returns the
default range. -/
theorem aiDateResult_of_failed (ts : String) (dr : DateRange)
    (aiResp : Except Unit String)
    (jp : String → Option (List (String × String)))
    (h : aiExtractionFailed aiResp jp = true) :
    aiDateResult ts dr aiResp jp = dr := by
  cases aiResp with
  | error e => rfl
  | ok t =>
    simp only [aiDateResult, aiExtractionFailed] at h ⊢
    cases hb : braceMatch t.trim with
    | none => simp only [hb]
    | some j =>
      simp only [hb] at h ⊢
      cases hj : jp j with
      | none => simp only [hj]
      | some parsed =>
        simp only [hj] at h ⊢
        cases hS : truthyField parsed "startDate" with
        | none => simp only [hS]
        | some s0 =>
          cases hE : truthyField parsed "endDate" with
          | none => simp only [hS, hE]
          | some e0 =>
            rw [hS, hE] at h
            simp at h

/-- C8: `extractDateRange` totalizes date resolution (it is a total
function of its inputs); in particular when the heuristic parser finds
nothing and the AI call throws or its response yields no parseable
JSON object with truthy startDate and endDate, the result is the
default trailing-7-day range ending today with usesCustomRange=false —
no error is surfaced. -/
theorem C8_theorem (query : String) (today : CivilDate)
    (aiResp : Except Unit String)
    (jsonParse : String → Option (List (String × String)))
    (hp : parseDateRangeFromQuery query today = none)
    (hfail : aiExtractionFailed aiResp jsonParse = true) :
    extractDateRange query today aiResp jsonParse =
      ⟨formatDate (dateAddDays today (-7)), formatDate today, false⟩ := by
  unfold extractDateRange
  rw [hp]
  cases hd : hasDateReference query with
  | false => simp [hd]
  | true => simp [hd, aiDateResult_of_failed _ _ _ _ hfail]

/-- C8 witness: "past week stats" has a date reference but no
heuristic parse; with a throwing AI call the default range comes back. -/
theorem C8_witness :
    extractDateRange "past week stats" ⟨2026, 10, 11⟩ (.error ()) (fun _ => none) =
      ⟨formatDate (dateAddDays ⟨2026, 10, 11⟩ (-7)), formatDate ⟨2026, 10, 11⟩, false⟩ :=
  C8_theorem "past week stats" ⟨2026, 10, 11⟩ (.error ()) (fun _ => none)
    (by rfl) (by rfl)

theorem strLe_eq_true_iff_strGt_eq_false (a b : String) :
    strLe a b = true ↔ strGt a b = false := by
  unfold strLe strGt strLt
  cases charListLt b.data a.data <;> simp

theorem strGe_eq_true_iff_strLt_eq_false (a b : String) :
    strGe a b = true ↔ strLt a b = false := by
  unfold strGe
  cases strLt a b <;> simp

theorem flagIff (n i : Bool) : (n = false ∨ i = true) ↔ (n = true → i = true) := by
  cases n <;> simp

/-- One needed-type guard of `cacheMatches` as a conjunction. -/
theorem flagStep (n i rest : Bool) :
    ((if n && !i then false else rest) = true) ↔
      ((n = true → i = true) ∧ rest = true) := by
  cases n <;> cases i <;> simp

def entryBadDates : CacheEntry := ⟨"", "2024-01-05", emptyOuraData, noTypes, 0⟩

/-- C4 (counterexample): the claimed iff for `matches` ignores the
falsy-date guard: an entry with an empty startDate satisfies
entry.startDate ≤ start, entry.endDate ≥ end and the (vacuous) type
conditions, yet `matches` returns false. -/
theorem C4_counterexample :
    ¬ (cacheMatches entryBadDates "2024-01-01" "2024-01-02" noTypes = true ↔
        (strLe entryBadDates.startDate "2024-01-01" = true ∧
          strGe entryBadDates.endDate "2024-01-02" = true ∧
          (noTypes.sleep = true → entryBadDates.includedTypes.sleep = true) ∧
          (noTypes.activity = true → entryBadDates.includedTypes.activity = true) ∧
          (noTypes.readiness = true → entryBadDates.includedTypes.readiness = true) ∧
          (noTypes.heartRate = true → entryBadDates.includedTypes.heartRate = true))) := by
  decide

/-- C4 (amended): for entries with nonempty startDate and endDate,
`matches` returns true iff the entry range is a superset of the
requested range (lexicographically on ISO strings) and every needed
type flag is included; entries with an empty date are always rejected.
`filterData` returns exactly the items whose day field, timestamp date
part, or dailyStats key lies within [s, e], inclusive on both ends
(for every requested range, not only sub-ranges). -/
theorem C4_theorem (entry : CacheEntry) (s e : String) (needed : DataTypeFlags)
    (h1 : entry.startDate ≠ "") (h2 : entry.endDate ≠ "") :
    (cacheMatches entry s e needed = true ↔
      (strLe entry.startDate s = true ∧ strGe entry.endDate e = true ∧
        (needed.sleep = true → entry.includedTypes.sleep = true) ∧
        (needed.activity = true → entry.includedTypes.activity = true) ∧
        (needed.readiness = true → entry.includedTypes.readiness = true) ∧
        (needed.heartRate = true → entry.includedTypes.heartRate = true))) ∧
    (∀ x : DayItem, x ∈ (filterData entry s e).sleep ↔
      (x ∈ entry.data.sleep ∧ strGe x.day s = true ∧ strLe x.day e = true)) ∧
    (∀ x : DayItem, x ∈ (filterData entry s e).activity ↔
      (x ∈ entry.data.activity ∧ strGe x.day s = true ∧ strLe x.day e = true)) ∧
    (∀ x : DayItem, x ∈ (filterData entry s e).readiness ↔
      (x ∈ entry.data.readiness ∧ strGe x.day s = true ∧ strLe x.day e = true)) ∧
    (∀ r : HRReading, r ∈ (filterData entry s e).heartRate.readings ↔
      (r ∈ entry.data.heartRate.readings ∧
        strGe (dayOfTimestamp r.timestamp) s = true ∧
        strLe (dayOfTimestamp r.timestamp) e = true)) ∧
    (∀ p : String × HRDayStats, p ∈ (filterData entry s e).heartRate.dailyStats ↔
      (p ∈ entry.data.heartRate.dailyStats ∧
        strGe p.1 s = true ∧ strLe p.1 e = true)) := by
  refine ⟨?_, ?_, ?_, ?_, ?_, ?_⟩
  · cases hA : strGt entry.startDate s <;> cases hB : strLt entry.endDate e <;>
      simp [cacheMatches, h1, h2, hA, hB, flagStep, flagIff,
        strLe_eq_true_iff_strGt_eq_false, strGe_eq_true_iff_strLt_eq_false,
        and_assoc]
  · intro x
    simp [filterData, List.mem_filter, Bool.and_eq_true]
  · intro x
    simp [filterData, List.mem_filter, Bool.and_eq_true]
  · intro x
    simp [filterData, List.mem_filter, Bool.and_eq_true]
  · intro r
    simp [filterData, List.mem_filter, Bool.and_eq_true]
  · intro p
    simp [filterData, List.mem_filter, Bool.and_eq_true]

def entryC4 : CacheEntry :=
  ⟨"2026-10-01", "2026-10-08",
    ⟨[⟨"2026-10-03", "a"⟩, ⟨"2026-10-09", "b"⟩], [], [],
      ⟨[⟨60, "ppg", "2026-10-03T01:00:00Z"⟩],
        [("2026-10-03", ⟨[], some 60, some 60, 60⟩)]⟩⟩,
    allTypes, 0⟩

/-- C4 witness: a well-formed entry covering [2026-10-02, 2026-10-07]
matches, and the in-range sleep item survives `filterData`. -/
theorem C4_witness :
    cacheMatches entryC4 "2026-10-02" "2026-10-07" allTypes = true ∧
    (⟨"2026-10-03", "a"⟩ : DayItem) ∈
      (filterData entryC4 "2026-10-02" "2026-10-07").sleep := by
  have h := C4_theorem entryC4 "2026-10-02" "2026-10-07" allTypes
    (by decide) (by decide)
  exact ⟨h.1.mpr (by decide), (h.2.1 ⟨"2026-10-03", "a"⟩).mpr (by decide)⟩

end TalkToOura
